import Mathlib

/-!
Verification development for the libpod runtime-bootstrap, lock-manager and
state-store/recovery core, together with the specgen namespace parser.
The Go source is shallowly embedded: strings are lists of characters,
fallible calls return `Except`/`Option`, and external side effects
(filesystem, conmon, CNI, storage) are represented by explicit outcome
records threaded through the embedded control flow in source order.
-/

namespace Libpod

/-- Strings in the embedding: Go strings as lists of characters. -/
abbrev Str := List Char

/-- Convert a Lean string literal to the embedding's string type. -/
def strL (s : String) : Str := s.data

/-- Error causes used by the embedded code.  `errors.Wrapf` in the source
preserves `errors.Cause`, so wrapping is modelled as cause-preserving (the
message text is not load-bearing for any property proved here). -/
inductive GoErr where
  | invalidArg
  | runtimeStopped
  | noFreeLocks
  | notExist
  | erange
  | other (msg : Str)
deriving DecidableEq, Repr

/-- `errors.Wrapf(err, ...)` keeps the cause; modelled as the identity on
the cause. -/
def wrapf (_msg : String) (e : GoErr) : GoErr := e

/-! ## specgen/namespaces.go -/

/-- `specgen.Namespace`: a namespace mode together with an optional value. -/
structure Namespace where
  nsMode : Str
  value : Str
deriving DecidableEq, Repr

/-- NamespaceMode constant `Default`. -/
def Default : Str := strL "default"
/-- NamespaceMode constant `Host`. -/
def Host : Str := strL "host"
/-- NamespaceMode constant `Path`. -/
def NsPath : Str := strL "path"
/-- NamespaceMode constant `FromContainer`. -/
def FromContainer : Str := strL "container"
/-- NamespaceMode constant `FromPod`. -/
def FromPod : Str := strL "pod"
/-- NamespaceMode constant `Private`. -/
def Private : Str := strL "private"
/-- NamespaceMode constant `NoNetwork`. -/
def NoNetwork : Str := strL "none"
/-- NamespaceMode constant `Bridge`. -/
def Bridge : Str := strL "bridge"
/-- NamespaceMode constant `Slirp`. -/
def Slirp : Str := strL "slirp4netns"

/-- The `case "", Default, Host, Path, FromContainer, FromPod, Private`
arm of the switch in `(*Namespace).validate`. -/
def validModeB (m : Str) : Bool :=
  m = ([] : Str) || m = Default || m = Host || m = NsPath ||
    m = FromContainer || m = FromPod || m = Private

/-- The `case NoNetwork, Bridge, Slirp` arm of the switch in
`(*Namespace).validate`. -/
def netModeB (m : Str) : Bool :=
  m = NoNetwork || m = Bridge || m = Slirp

/-- The value check shared by `validate` and `validateNetNS`: `Path` and
`FromContainer` require a non-empty value, every other mode requires an
empty one. -/
def valueCheck (n : Namespace) : Option Str :=
  if n.nsMode = NsPath ∨ n.nsMode = FromContainer then
    if n.value.length < 1 then
      some (strL "namespace mode requires a value")
    else none
  else
    if n.value.length > 0 then
      some (strL "namespace value cannot be provided with namespace mode")
    else none

/-- `(*Namespace).validate`: nil receiver succeeds; the mode switch rejects
network-only and unknown modes; then the value check runs.  `none` models a
nil error. -/
def nsValidate : Option Namespace → Option Str
  | none => none
  | some n =>
    if validModeB n.nsMode then
      valueCheck n
    else if netModeB n.nsMode then
      some (strL "cannot use network modes with non-network namespace")
    else
      some (strL "invalid namespace type specified")

/-- `strings.HasPrefix`. -/
def goHasPre (pre s : Str) : Bool := List.isPrefixOf pre s

/-- Split a character list at the first occurrence of `c`, if any. -/
def splitAtFirst (c : Char) : Str → Option (Str × Str)
  | [] => none
  | x :: xs =>
    if x = c then some ([], xs)
    else
      match splitAtFirst c xs with
      | none => none
      | some (a, b) => some (x :: a, b)

/-- `strings.SplitN(s, sep, 2)` for a one-character separator: two parts
when the separator occurs, the whole string otherwise. -/
def splitN2 (c : Char) (s : Str) : List Str :=
  match splitAtFirst c s with
  | none => [s]
  | some (a, b) => [a, b]

/-- `strings.Split(s, sep)` for a one-character separator. -/
def splitAll (c : Char) : Str → List Str
  | [] => [[]]
  | x :: xs =>
    if x = c then [] :: splitAll c xs
    else
      match splitAll c xs with
      | [] => [[x]]
      | y :: ys => (x :: y) :: ys

/-- `specgen.ParseNetworkNamespace`: returns the parsed namespace, the CNI
network list, or an error. -/
def ParseNetworkNamespace (ns : Str) :
    Except Str (Namespace × List Str) :=
  if ns = Bridge then .ok (⟨Bridge, []⟩, [])
  else if ns = NoNetwork then .ok (⟨NoNetwork, []⟩, [])
  else if ns = Host then .ok (⟨Host, []⟩, [])
  else if ns = Private then .ok (⟨Private, []⟩, [])
  else if goHasPre (strL "ns:") ns then
    if (splitN2 ':' ns).length ≠ 2 then
      .error (strL "must provide a path to a namespace when specifying ns:")
    else
      .ok (⟨NsPath, (splitN2 ':' ns).getD 1 []⟩, [])
  else if goHasPre (strL "container:") ns then
    if (splitN2 ':' ns).length ≠ 2 then
      .error (strL "must provide name or ID or a container when specifying container:")
    else
      .ok (⟨FromContainer, (splitN2 ':' ns).getD 1 []⟩, [])
  else
    .ok (⟨Bridge, []⟩, splitAll ',' ns)

/-- Whether an `Except` carries a value. -/
def exOk : Except α β → Bool
  | .ok _ => true
  | .error _ => false

/-! ## Lock Manager pool (allocate / free)

Modelled from the spec: the lock manager implementations (`lock/shm`,
`lock/file`) are not under src/, only their open/create call sites are.
Per the spec, `allocate` reserves the lowest-numbered free index and fails
with `ErrNoFreeLocks` when the pool of `n` indices is exhausted; `free`
returns an index to the pool. -/

/-- A lock pool: a fixed size `n` and the set of currently held indices. -/
structure LockPool where
  n : Nat
  held : List Nat
deriving DecidableEq, Repr

/-- Scan indices `start, start+1, ...` (at most `fuel` of them) for the
first one not in `held`. -/
def firstFreeFrom (held : List Nat) : Nat → Nat → Option Nat
  | _, 0 => none
  | start, fuel + 1 =>
    if start ∈ held then firstFreeFrom held (start + 1) fuel else some start

/-- Modelled from the spec: `allocate` reserves the lowest-numbered free
index in `0 .. n-1`, or fails with `ErrNoFreeLocks` when all are held. -/
def LockPool.allocate (p : LockPool) : Except GoErr (Nat × LockPool) :=
  match firstFreeFrom p.held 0 p.n with
  | none => .error .noFreeLocks
  | some i => .ok (i, { p with held := i :: p.held })

/-- Modelled from the spec: `free` returns an index to the pool. -/
def LockPool.free (p : LockPool) (i : Nat) : LockPool :=
  { p with held := p.held.filter (· ≠ i) }

/-! ## libpod/runtime.go: getLockManager -/

/-- A lock manager handle as seen by `getLockManager`: which backend it is
and whether it had to be freshly created (`New...`) rather than opened. -/
structure LockMgr where
  backend : Str
  fresh : Bool
deriving DecidableEq, Repr

/-- Outcomes of the lock-manager open/create/remove calls made by
`getLockManager`; the calls themselves live outside src/, so each call
site's result is an explicit input. -/
structure LockEnv where
  openFileRes : Except GoErr Unit
  newFileRes : Except GoErr Unit
  openShmRes : Except GoErr Unit
  newShmRes : Except GoErr Unit
  removeShmErr : Option GoErr
deriving Repr

/-- `getLockManager`: dispatch on `config.LockType`.  The `file` backend
retries with `NewFileLockManager` exactly on a not-exist open error; the
`shm` backend (also selected by the empty string) retries with
`NewSHMLockManager` on not-exist, removes and recreates the SHM segment on
`ERANGE` when `doRenumber` is set, and fails otherwise; any other lock
type is `ErrInvalidArg`. -/
def getLockManager (lockType : Str) (doRenumber : Bool) (env : LockEnv) :
    Except GoErr LockMgr :=
  if lockType = strL "file" then
    match env.openFileRes with
    | .ok _ => .ok ⟨strL "file", false⟩
    | .error e =>
      if e = .notExist then
        match env.newFileRes with
        | .ok _ => .ok ⟨strL "file", true⟩
        | .error e2 => .error (wrapf "failed to get new file lock manager" e2)
      else .error e
  else if lockType = ([] : Str) ∨ lockType = strL "shm" then
    match env.openShmRes with
    | .ok _ => .ok ⟨strL "shm", false⟩
    | .error e =>
      if e = .notExist then
        match env.newShmRes with
        | .ok _ => .ok ⟨strL "shm", true⟩
        | .error e2 => .error (wrapf "failed to get new shm lock manager" e2)
      else if e = .erange ∧ doRenumber then
        match env.removeShmErr with
        | some e2 => .error (wrapf "error removing libpod locks file" e2)
        | none =>
          match env.newShmRes with
          | .ok _ => .ok ⟨strL "shm", true⟩
          | .error e2 => .error e2
      else .error e
  else .error (wrapf "unknown lock type" .invalidArg)

/-! ## libpod/runtime.go: OCI runtime registry setup (inside makeRuntime) -/

/-- `filepath.Base`: empty path gives ".", all-separators gives "/",
otherwise the last path element after trailing slashes are dropped. -/
def filepathBase (p : Str) : Str :=
  if p = [] then strL "."
  else
    let cs := (p.reverse.dropWhile (· = '/')).reverse
    if cs = [] then strL "/"
    else (cs.reverse.takeWhile (· ≠ '/')).reverse

/-- An initialized OCI runtime handle with its capability flags. -/
structure OCIRt where
  name : Str
  paths : List Str
  json : Bool
  nocgroups : Bool
deriving DecidableEq, Repr

/-- The configuration fields consulted by the OCI-runtime setup block. -/
structure OCICfg where
  runtimePath : Option (List Str)
  ociRuntimes : List (Str × List Str)
  ociRuntime : Str
  supportsJSON : List Str
  supportsNoCgroups : List Str
deriving Repr

/-- Outcome of each `newConmonOCIRuntime(name, paths, ...)` call; the
constructor itself is outside src/, so its result is an explicit input. -/
structure OCIEnv where
  initErr : Str → List Str → Option GoErr

/-- Build the handle `newConmonOCIRuntime` returns on success, with the
capability flags looked up in the `supportsJSON` / `supportsNoCgroups`
tables. -/
def mkOCIRt (cfg : OCICfg) (name : Str) (paths : List Str) : OCIRt :=
  ⟨name, paths, cfg.supportsJSON.contains name,
    cfg.supportsNoCgroups.contains name⟩

/-- Go map assignment `runtime.ociRuntimes[name] = rt`. -/
def mapSet (m : List (Str × OCIRt)) (k : Str) (v : OCIRt) :
    List (Str × OCIRt) :=
  (k, v) :: m.filter (fun p => p.1 ≠ k)

/-- The OCI-runtime setup block of `makeRuntime`, in source order: a legacy
`runtime_path` entry (fatal on init failure) that also becomes the default;
then every `runtimes` table entry (init failures logged and skipped); then
the `runtime` entry, which — when non-empty — is resolved (path form or
name lookup) and becomes the default; finally the registry must be
non-empty and a default must be designated. -/
def selectOCI (cfg : OCICfg) (env : OCIEnv) :
    Except GoErr (List (Str × OCIRt) × Option OCIRt) := do
  let (m0, d0) ←
    (match cfg.runtimePath with
      | none => .ok ([], none)
      | some ps =>
        if ps.length = 0 then
          .error (wrapf "empty runtime path array passed" GoErr.invalidArg)
        else
          let name := filepathBase (ps.headD [])
          match env.initErr name ps with
          | some e => .error e
          | none =>
            let rt := mkOCIRt cfg name ps
            .ok (mapSet [] name rt, some rt) :
      Except GoErr (List (Str × OCIRt) × Option OCIRt))
  let m1 := cfg.ociRuntimes.foldl
    (fun m nmps =>
      match env.initErr nmps.1 nmps.2 with
      | some _ => m
      | none => mapSet m nmps.1 (mkOCIRt cfg nmps.1 nmps.2)) m0
  let (m2, d2) ←
    (if cfg.ociRuntime ≠ ([] : Str) then
      if goHasPre (strL "/") cfg.ociRuntime then
        let name := filepathBase cfg.ociRuntime
        match env.initErr name [cfg.ociRuntime] with
        | some e => .error e
        | none =>
          let rt := mkOCIRt cfg name [cfg.ociRuntime]
          .ok (mapSet m1 name rt, some rt)
      else
        match m1.lookup cfg.ociRuntime with
        | none => .error (wrapf "default OCI runtime not found" GoErr.invalidArg)
        | some rt => .ok (m1, some rt)
    else .ok (m1, d0) : Except GoErr (List (Str × OCIRt) × Option OCIRt))
  if m2.length = 0 then
    .error (wrapf "no OCI runtime has been configured" GoErr.invalidArg)
  else if d2 = none then
    .error (wrapf "no default OCI runtime was configured" GoErr.invalidArg)
  else
    .ok (m2, d2)

/-- The name of the designated default OCI runtime, if setup succeeded. -/
def defaultName (r : Except GoErr (List (Str × OCIRt) × Option OCIRt)) :
    Option Str :=
  match r with
  | .ok (_, some rt) => some rt.name
  | _ => none

/-! ## State store, entities and the reboot-recovery refresh pass -/

/-- A persisted entity (container, pod or volume) as the refresh and
shutdown passes see it: its ID, the outcome of its own `refresh()` method,
and (containers only) its running state and the outcome of
`StopWithTimeout`. -/
structure Entity where
  eid : Str
  refreshErr : Option Str
  running : Bool
  stopErr : Option Str
deriving DecidableEq, Repr

/-- The state store as consulted by `makeRuntime`, `refresh` and
`Shutdown`: outcomes of `Refresh`, the three listing calls, and `Close`.
The store implementations (BoltDB / in-memory) are outside the refresh and
shutdown control flow being verified, so each call's result is an explicit
input. -/
structure StateStore where
  storeRefreshErr : Option GoErr
  allCtrsRes : Except GoErr (List Entity)
  allPodsRes : Except GoErr (List Entity)
  allVolsRes : Except GoErr (List Entity)
  closeErr : Option GoErr
deriving Repr

/-- Observable events of the embedded control flow, in execution order. -/
inductive Ev where
  | refreshed (id : Str)
  | logged (msg : Str)
  | stopAttempt (id : Str)
  | aliveCreated
deriving DecidableEq, Repr

/-- The filesystem state relevant to reboot detection: whether the
alive-marker file exists in the tmp directory. -/
structure World where
  aliveExists : Bool
deriving DecidableEq, Repr

/-- The per-entity loop bodies of `Runtime.refresh`: every entity's
`refresh()` is invoked; a failure is logged and the loop continues. -/
def refreshEntities (es : List Entity) : List Ev :=
  es.flatMap (fun e =>
    Ev.refreshed e.eid ::
      (match e.refreshErr with
       | some m => [Ev.logged m]
       | none => []))

/-- `Runtime.refresh(alivePath)`: clear store-level transient state, list
all containers, pods and volumes (each listing failure aborts), refresh
every entity with per-entity failures logged, then create the alive-marker
file. -/
def runtimeRefresh (st : StateStore) (createAliveErr : Option GoErr)
    (w : World) : Except GoErr (List Ev × World) :=
  match st.storeRefreshErr with
  | some e => .error e
  | none =>
    match st.allCtrsRes with
    | .error e => .error (wrapf "error retrieving all containers from state" e)
    | .ok ctrs =>
      match st.allPodsRes with
      | .error e => .error (wrapf "error retrieving all pods from state" e)
      | .ok pods =>
        match st.allVolsRes with
        | .error e => .error (wrapf "error retrieving all volumes from state" e)
        | .ok vols =>
          let evs := refreshEntities ctrs ++ refreshEntities pods ++
            refreshEntities vols
          match createAliveErr with
          | some e => .error (wrapf "error creating runtime status file" e)
          | none => .ok (evs ++ [Ev.aliveCreated], { w with aliveExists := true })

/-! ## makeRuntime -/

/-- `config.StateType` (`define.RuntimeStateStore`): the recognized
constants plus any other numeric value. -/
inductive StateType where
  | inMemory
  | sqlite
  | boltdb
  | other (n : Nat)
deriving DecidableEq, Repr

/-- The configuration fields that steer the embedded `makeRuntime`. -/
structure BootCfg where
  stateType : StateType
  lockType : Str
  oci : OCICfg
  noStore : Bool
  doRenumber : Bool
  doMigrate : Bool
deriving Repr

/-- Outcomes of the external calls `makeRuntime` makes, one field per call
site, in source order.  The model fixes euid = 0 (the rootless re-exec via
`BecomeRootInUserNS` / `os.Exit` in the marker-absent branch is outside the
embedding). -/
structure BootEnv where
  conmonRes : Except GoErr Str
  mkStaticDirErr : Option GoErr
  newStateErr : Option GoErr
  getDBConfigErr : Option GoErr
  mergeDBConfigErr : Option GoErr
  validateDBConfigErr : Option GoErr
  setNamespaceErr : Option GoErr
  configureStoreErr : Option GoErr
  newEventerErr : Option GoErr
  mkTmpDirErr : Option GoErr
  mkEventsDirErr : Option GoErr
  ociEnv : OCIEnv
  mkTmpDirErr2 : Option GoErr
  cniErr : Option GoErr
  getLockfileErr : Option GoErr
  lockEnv : LockEnv
  renumberErr : Option GoErr
  createAliveErr : Option GoErr
  migrateErr : Option GoErr

/-- The runtime handle `makeRuntime` builds. -/
structure RuntimeS where
  valid : Bool
  state : StateStore
  storePresent : Bool
  lockMgr : Option LockMgr
  defaultOCI : Option OCIRt
  cfg : BootCfg

/-- Lift an optional error (a Go call returning only `error`) into the
bootstrap's error monad. -/
def optStep (e : Option GoErr) : Except GoErr Unit :=
  match e with
  | some err => .error err
  | none => .ok ()

/-- The state-store switch of `makeRuntime`: in-memory and BoltDB open a
store, SQLite is rejected as currently disabled, and any other value is
`ErrInvalidArg`. -/
def stateSwitch (t : StateType) (newStateErr : Option GoErr) :
    Except GoErr Unit :=
  match t with
  | .inMemory => optStep newStateErr
  | .sqlite => .error (wrapf "SQLite state is currently disabled" GoErr.invalidArg)
  | .boltdb => optStep newStateErr
  | .other _ => .error (wrapf "unrecognized state type passed" GoErr.invalidArg)

/-- `makeRuntime`, in source order: conmon lookup, static dir, state-store
switch, DB-config merge/validation, namespace, containers/storage, eventer,
tmp and events dirs, OCI runtime registry setup, per-boot dir, CNI plugin,
then — under the alive lock — the stat of the alive-marker file sets the
refresh flag exactly when the file is absent, the lock manager is obtained,
an optional renumber runs, the refresh pass runs when flagged (configuring
the store first if none was opened), and finally the runtime is marked
valid.  Returns the runtime, the updated filesystem state and the event
trace. -/
def makeRuntime (cfg : BootCfg) (env : BootEnv) (st : StateStore)
    (w : World) : Except GoErr (RuntimeS × World × List Ev) := do
  let _conmonPath ← env.conmonRes
  optStep env.mkStaticDirErr
  stateSwitch cfg.stateType env.newStateErr
  optStep (env.getDBConfigErr.map (wrapf "error retrieving runtime configuration from database"))
  optStep (env.mergeDBConfigErr.map (wrapf "error merging database config into runtime config"))
  optStep env.validateDBConfigErr
  optStep (env.setNamespaceErr.map (wrapf "error setting libpod namespace in state"))
  if !cfg.noStore then optStep env.configureStoreErr
  optStep env.newEventerErr
  optStep (env.mkTmpDirErr.map (wrapf "error creating tmpdir"))
  optStep (env.mkEventsDirErr.map (wrapf "error creating events dirs"))
  let (_ociMap, dflt) ← selectOCI cfg.oci env.ociEnv
  optStep (env.mkTmpDirErr2.map (wrapf "error creating runtime temporary files directory"))
  optStep (env.cniErr.map (wrapf "error configuring CNI network plugin"))
  optStep (env.getLockfileErr.map (wrapf "error acquiring runtime init lock"))
  let doRefresh := !w.aliveExists
  let lockMgr ← getLockManager cfg.lockType cfg.doRenumber env.lockEnv
  if cfg.doRenumber then optStep env.renumberErr
  let (evs, w') ←
    (if doRefresh then do
      if cfg.noStore then optStep env.configureStoreErr
      runtimeRefresh st env.createAliveErr w
    else pure ([], w) : Except GoErr (List Ev × World))
  let rt : RuntimeS :=
    { valid := true, state := st, storePresent := !cfg.noStore || doRefresh,
      lockMgr := some lockMgr, defaultOCI := dflt, cfg := cfg }
  if cfg.doMigrate then optStep env.migrateErr
  return (rt, w', evs)

/-! ## GetConfig and Shutdown -/

/-- `Runtime.GetConfig`: fails with `ErrRuntimeStopped` when the runtime is
no longer valid, otherwise returns a copy of the configuration
(`JSONDeepCopy` of a value is modelled as the value itself). -/
def getConfig (r : RuntimeS) : Except GoErr BootCfg :=
  if !r.valid then .error .runtimeStopped
  else .ok r.cfg

/-- Modelled from the spec: containers/storage `Store.Shutdown` is outside
this repository.  Per `Runtime.Shutdown`'s own documentation, with
force=false it returns an error while containers are still running (their
layers mounted); with force=true it tears everything down. -/
def storeShutdown (force anyRunning : Bool) : Option GoErr :=
  if !force && anyRunning then some (.other (strL "layers still mounted"))
  else none

/-- Whether any container known to the state is still running. -/
def anyRunningB (st : StateStore) : Bool :=
  match st.allCtrsRes with
  | .ok ctrs => ctrs.any (·.running)
  | .error _ => false

/-- `Runtime.Shutdown(force)`: fails fast with `ErrRuntimeStopped` when
already invalid; otherwise clears the validity flag, stops every container
when force is set (a listing failure or per-container stop failure is
logged, never fatal), shuts the storage store down, and closes the state,
returning the last of the store/state errors.  Yields the result, the
updated runtime and the event trace. -/
def shutdown (r : RuntimeS) (force : Bool) :
    Option GoErr × RuntimeS × List Ev :=
  if !r.valid then (some .runtimeStopped, r, [])
  else
    let r' := { r with valid := false }
    let stopEvs : List Ev :=
      if force then
        match r.state.allCtrsRes with
        | .error _ => [Ev.logged (strL "Error retrieving containers from database")]
        | .ok ctrs =>
          ctrs.flatMap (fun c =>
            Ev.stopAttempt c.eid ::
              (match c.stopErr with
               | some m => [Ev.logged m]
               | none => []))
      else []
    let lastError1 : Option GoErr :=
      if r.storePresent then
        (storeShutdown force (anyRunningB r.state)).map
          (wrapf "Error shutting down container storage")
      else none
    let (lastError2, closeEvs) :=
      match r.state.closeErr with
      | some e =>
        (some e,
          match lastError1 with
          | some _ => [Ev.logged (strL "prior shutdown error")]
          | none => ([] : List Ev))
      | none => (lastError1, ([] : List Ev))
    (lastError2, r', stopEvs ++ closeEvs)

/-- The operations whose validity-gating the invariants quantify over. -/
inductive RtOp where
  | opGetConfig
  | opShutdown (force : Bool)
deriving DecidableEq, Repr

/-- Run one operation against the runtime, yielding the new runtime and the
operation's error result (if any). -/
def runOp (r : RuntimeS) (op : RtOp) : RuntimeS × Option GoErr :=
  match op with
  | .opGetConfig =>
    match getConfig r with
    | .ok _ => (r, none)
    | .error e => (r, some e)
  | .opShutdown f =>
    let (res, r', _) := shutdown r f
    (r', res)

/-- Run a sequence of operations, collecting each one's error result. -/
def runOps : RuntimeS → List RtOp → RuntimeS × List (Option GoErr)
  | r, [] => (r, [])
  | r, op :: ops =>
    let (r', e) := runOp r op
    let (r'', es) := runOps r' ops
    (r'', e :: es)

/-! ## Concrete instances used to exercise the embedded code -/

/-- A container whose own refresh and stop succeed. -/
def eClean : Entity := ⟨strL "c1", none, false, none⟩
/-- A running container whose refresh and stop both fail. -/
def eBad : Entity := ⟨strL "c2", some (strL "refresh failed"), true,
  some (strL "stop failed")⟩
/-- A pod entity. -/
def ePod : Entity := ⟨strL "p1", none, false, none⟩
/-- A volume entity whose refresh fails. -/
def eVol : Entity := ⟨strL "v1", some (strL "vol refresh failed"), false, none⟩

/-- A state store holding the entities above, with all store-level calls
succeeding. -/
def stOkW : StateStore :=
  { storeRefreshErr := none
    allCtrsRes := .ok [eClean, eBad]
    allPodsRes := .ok [ePod]
    allVolsRes := .ok [eVol]
    closeErr := none }

/-- Lock-manager call outcomes: every open succeeds. -/
def lockEnvOk : LockEnv :=
  { openFileRes := .ok (), newFileRes := .ok (), openShmRes := .ok (),
    newShmRes := .ok (), removeShmErr := none }

/-- Lock-manager call outcomes: the file medium does not exist yet and the
SHM segment reports a size mismatch; creation succeeds. -/
def lockEnvFresh : LockEnv :=
  { openFileRes := .error .notExist, newFileRes := .ok (),
    openShmRes := .error .erange, newShmRes := .ok (), removeShmErr := none }

/-- Lock-manager call outcomes: opening fails with a non-not-exist,
non-ERANGE error. -/
def lockEnvBad : LockEnv :=
  { openFileRes := .error (.other (strL "io")), newFileRes := .ok (),
    openShmRes := .error (.other (strL "io")), newShmRes := .ok (),
    removeShmErr := none }

/-- Every `newConmonOCIRuntime` call succeeds. -/
def envOCIOk : OCIEnv := ⟨fun _ _ => none⟩

/-- The configuration exhibiting the `runtime_path` / `runtime` precedence
question: both are set, and the `runtime` name is registered in the
`runtimes` table. -/
def cfgC3 : OCICfg :=
  { runtimePath := some [strL "/usr/bin/runc"]
    ociRuntimes := [(strL "crun", [strL "/usr/bin/crun"])]
    ociRuntime := strL "crun"
    supportsJSON := [strL "crun"]
    supportsNoCgroups := [] }

/-- A plain OCI configuration with a single named runtime. -/
def ociCfgW : OCICfg :=
  { runtimePath := none
    ociRuntimes := [(strL "runc", [strL "/usr/bin/runc"])]
    ociRuntime := strL "runc"
    supportsJSON := []
    supportsNoCgroups := [] }

/-- A bootstrap configuration with recognized state and lock types. -/
def cfgW : BootCfg :=
  { stateType := .boltdb, lockType := strL "shm", oci := ociCfgW,
    noStore := false, doRenumber := false, doMigrate := false }

/-- A bootstrap environment in which every external call succeeds. -/
def envW : BootEnv :=
  { conmonRes := .ok (strL "/usr/bin/conmon"), mkStaticDirErr := none,
    newStateErr := none, getDBConfigErr := none, mergeDBConfigErr := none,
    validateDBConfigErr := none, setNamespaceErr := none,
    configureStoreErr := none, newEventerErr := none, mkTmpDirErr := none,
    mkEventsDirErr := none, ociEnv := envOCIOk, mkTmpDirErr2 := none,
    cniErr := none, getLockfileErr := none, lockEnv := lockEnvOk,
    renumberErr := none, createAliveErr := none, migrateErr := none }

/-- The runtime record `makeRuntime` returns on success: valid, holding
the store, lock manager and default OCI runtime, with the storage store
configured either up front or by the refresh branch. -/
def mkRt (cfg : BootCfg) (st : StateStore) (lm : LockMgr) (d : Option OCIRt)
    (doRefresh : Bool) : RuntimeS :=
  { valid := true, state := st, storePresent := !cfg.noStore || doRefresh,
    lockMgr := some lm, defaultOCI := d, cfg := cfg }

/-- The handle `selectOCI` builds for the single runtime of `ociCfgW`. -/
def rtW : OCIRt := ⟨strL "runc", [strL "/usr/bin/runc"], false, false⟩

/-- The registry and default `selectOCI` yields on `ociCfgW`. -/
def selW : List (Str × OCIRt) × Option OCIRt :=
  ([(strL "runc", rtW)], some rtW)

/-- A valid runtime over the concrete store. -/
def rValidW : RuntimeS :=
  { valid := true, state := stOkW, storePresent := true,
    lockMgr := some ⟨strL "shm", false⟩, defaultOCI := none, cfg := cfgW }

/-- The same runtime after invalidation. -/
def rStoppedW : RuntimeS := { rValidW with valid := false }

/-! ## Helper lemmas -/

theorem exBind_ok (a : α) (f : α → Except ε β) :
    (Except.ok a >>= f) = f a := rfl

theorem exBind_err (e : ε) (f : α → Except ε β) :
    ((Except.error e : Except ε α) >>= f) = Except.error e := rfl

theorem exPure (x : α) : (pure x : Except ε α) = Except.ok x := rfl

/-- The allowed-mode arm of `validate`'s switch, as a proposition. -/
theorem validModeB_iff (m : Str) :
    validModeB m = true ↔
      (m = ([] : Str) ∨ m = Default ∨ m = Host ∨ m = NsPath ∨
        m = FromContainer ∨ m = FromPod ∨ m = Private) := by
  simp [validModeB, Bool.or_eq_true, decide_eq_true_eq, or_assoc]

/-- The value check succeeds exactly when the value is non-empty iff the
mode is `path` or `container`. -/
theorem valueCheck_none_iff (n : Namespace) :
    valueCheck n = none ↔
      (n.value ≠ ([] : Str) ↔ (n.nsMode = NsPath ∨ n.nsMode = FromContainer)) := by
  by_cases h : n.nsMode = NsPath ∨ n.nsMode = FromContainer <;>
    cases hv : n.value <;>
      simp [valueCheck, h, hv]

/-- `splitAtFirst` finds a split whenever the separator occurs. -/
theorem splitAtFirst_isSome_of_mem {c : Char} :
    ∀ s : Str, c ∈ s → (splitAtFirst c s).isSome = true := by
  intro s hc
  induction s with
  | nil => cases hc
  | cons x xs ih =>
    by_cases hx : x = c
    · simp [splitAtFirst, hx]
    · rcases List.mem_cons.mp hc with h | h
      · exact absurd h.symm hx
      · obtain ⟨p, hp⟩ := Option.isSome_iff_exists.mp (ih h)
        simp [splitAtFirst, hx, hp]

/-- `strings.SplitN(s, ":", 2)` yields exactly two parts whenever the
separator occurs in `s`. -/
theorem splitN2_length_two {c : Char} {s : Str} (h : c ∈ s) :
    (splitN2 c s).length = 2 := by
  obtain ⟨⟨a, b⟩, hp⟩ :=
    Option.isSome_iff_exists.mp (splitAtFirst_isSome_of_mem s h)
  simp [splitN2, hp]

/-- A string with a prefix containing `':'` contains `':'`. -/
theorem colon_mem_of_pre {pre s : Str} (h : goHasPre pre s = true)
    (hc : ':' ∈ pre) : ':' ∈ s := by
  obtain ⟨t, ht⟩ := List.isPrefixOf_iff_prefix.mp h
  rw [← ht]
  exact List.mem_append_left t hc

/-! ## Claim theorems -/

/-- C9: for a non-nil `Namespace`, `validate` succeeds exactly when the
mode is one of "", default, host, path, container, pod, private and the
value is non-empty precisely for the path and container modes; the
network-only modes none, bridge, slirp4netns are always rejected; a nil
`Namespace` validates successfully. -/
theorem C9_namespace_validate_characterization :
    nsValidate none = none ∧
    (∀ n : Namespace,
      nsValidate (some n) = none ↔
        ((n.nsMode = ([] : Str) ∨ n.nsMode = Default ∨ n.nsMode = Host ∨
            n.nsMode = NsPath ∨ n.nsMode = FromContainer ∨
            n.nsMode = FromPod ∨ n.nsMode = Private) ∧
          (n.value ≠ ([] : Str) ↔
            (n.nsMode = NsPath ∨ n.nsMode = FromContainer)))) ∧
    (∀ v : Str, nsValidate (some ⟨NoNetwork, v⟩) ≠ none) ∧
    (∀ v : Str, nsValidate (some ⟨Bridge, v⟩) ≠ none) ∧
    (∀ v : Str, nsValidate (some ⟨Slirp, v⟩) ≠ none) := by
  refine ⟨rfl, fun n => ?_, fun v => ?_, fun v => ?_, fun v => ?_⟩
  · by_cases hm : validModeB n.nsMode = true
    · rw [nsValidate, if_pos hm, valueCheck_none_iff]
      rw [validModeB_iff] at hm
      simp [hm]
    · rw [nsValidate, if_neg hm]
      rw [validModeB_iff] at hm  -- hm is still a negation via propext? no
      constructor
      · intro h
        by_cases hn : netModeB n.nsMode = true <;> simp [hn] at h
      · intro ⟨h1, _⟩
        exact absurd h1 (by simpa using hm)
  · have h1 : validModeB NoNetwork = false := by decide
    have h2 : netModeB NoNetwork = true := by decide
    simp [nsValidate, h1, h2]
  · have h1 : validModeB Bridge = false := by decide
    have h2 : netModeB Bridge = true := by decide
    simp [nsValidate, h1, h2]
  · have h1 : validModeB Slirp = false := by decide
    have h2 : netModeB Slirp = true := by decide
    simp [nsValidate, h1, h2]

/-- C9 witness: concrete instances of the characterization. -/
theorem C9_namespace_validate_witness :
    nsValidate (some ⟨strL "path", strL "/proc/1/ns/net"⟩) = none ∧
    nsValidate (some ⟨strL "host", strL "x"⟩) ≠ none ∧
    nsValidate (some ⟨strL "bridge", []⟩) ≠ none := by
  refine ⟨?_, ?_, C9_namespace_validate_characterization.2.2.2.1 []⟩
  · exact (C9_namespace_validate_characterization.2.1 _).mpr
      (by refine ⟨by simp [NsPath, strL], ?_⟩; simp [NsPath, FromContainer, strL])
  · intro h
    have := (C9_namespace_validate_characterization.2.1 ⟨strL "host", strL "x"⟩).mp h
    rcases this with ⟨_, hiff⟩
    have := hiff.mp (by simp [strL])
    simp [Host, NsPath, FromContainer, strL] at this

/-- C10: `ParseNetworkNamespace` never returns an error: every input that
is not one of the four literal modes and does not carry the `ns:` or
`container:` prefix is treated as a comma-separated CNI network list in
bridge mode, and `"ns:"` alone parses to mode path with an empty value
because `SplitN` with limit 2 always yields two parts when the separator
is present. -/
theorem C10_parse_network_namespace_total :
    (∀ s : Str, exOk (ParseNetworkNamespace s) = true) ∧
    (∀ s : Str, s ≠ Bridge → s ≠ NoNetwork → s ≠ Host → s ≠ Private →
      goHasPre (strL "ns:") s = false →
      goHasPre (strL "container:") s = false →
      ParseNetworkNamespace s = .ok (⟨Bridge, []⟩, splitAll ',' s)) ∧
    ParseNetworkNamespace (strL "ns:") = .ok (⟨NsPath, []⟩, []) := by
  refine ⟨fun s => ?_, fun s h1 h2 h3 h4 h5 h6 => ?_, by rfl⟩
  · unfold ParseNetworkNamespace
    split_ifs with g1 g2 g3 g4 g5 g6 g7 g8 <;> try rfl
    · exact absurd (splitN2_length_two (colon_mem_of_pre g5 (by decide))) g6
    · exact absurd (splitN2_length_two (colon_mem_of_pre g7 (by decide))) g8
  · simp [ParseNetworkNamespace, h1, h2, h3, h4, h5, h6]

/-- C10 witness: the totality and bridge-list facts at concrete inputs. -/
theorem C10_parse_network_namespace_witness :
    exOk (ParseNetworkNamespace (strL "container:")) = true ∧
    ParseNetworkNamespace (strL "net1,net2") =
      .ok (⟨Bridge, []⟩, splitAll ',' (strL "net1,net2")) := by
  refine ⟨C10_parse_network_namespace_total.1 _, ?_⟩
  exact C10_parse_network_namespace_total.2.1 _ (by decide) (by decide)
    (by decide) (by decide) (by decide) (by decide)

/-- A successful scan result is a free index, lies in the scanned window,
and everything below it in the window is held. -/
theorem firstFreeFrom_some_spec (held : List Nat) :
    ∀ (fuel start i : Nat), firstFreeFrom held start fuel = some i →
      i ∉ held ∧ start ≤ i ∧ i < start + fuel ∧
        (∀ j, start ≤ j → j < i → j ∈ held) := by
  intro fuel
  induction fuel with
  | zero => intro start i h; simp [firstFreeFrom] at h
  | succ n ih =>
    intro start i h
    by_cases hs : start ∈ held
    · have h' : firstFreeFrom held (start + 1) n = some i := by
        simpa [firstFreeFrom, hs] using h
      obtain ⟨h1, h2, h3, h4⟩ := ih (start + 1) i h'
      refine ⟨h1, by omega, by omega, fun j hj1 hj2 => ?_⟩
      rcases Nat.eq_or_lt_of_le hj1 with he | hl
      · exact he ▸ hs
      · exact h4 j hl hj2
    · have hi : start = i := by simpa [firstFreeFrom, hs] using h
      subst hi
      exact ⟨hs, Nat.le_refl _, by omega, fun j hj1 hj2 => absurd hj1 (by omega)⟩

/-- A failed scan means every index in the window is held. -/
theorem firstFreeFrom_none_spec (held : List Nat) :
    ∀ (fuel start : Nat), firstFreeFrom held start fuel = none →
      ∀ j, start ≤ j → j < start + fuel → j ∈ held := by
  intro fuel
  induction fuel with
  | zero => intro start _ j hj1 hj2; omega
  | succ n ih =>
    intro start h j hj1 hj2
    by_cases hs : start ∈ held
    · have h' : firstFreeFrom held (start + 1) n = none := by
        simpa [firstFreeFrom, hs] using h
      rcases Nat.eq_or_lt_of_le hj1 with he | hl
      · exact he ▸ hs
      · exact ih (start + 1) h' j hl (by omega)
    · simp [firstFreeFrom, hs] at h

/-- The scan returns `i` when `i` is free, lies in the window, and every
smaller index in the window is held. -/
theorem firstFreeFrom_eq_some (held : List Nat) :
    ∀ (fuel start i : Nat), start ≤ i → i < start + fuel → i ∉ held →
      (∀ j, start ≤ j → j < i → j ∈ held) →
      firstFreeFrom held start fuel = some i := by
  intro fuel
  induction fuel with
  | zero => intro start i h1 h2 _ _; omega
  | succ n ih =>
    intro start i h1 h2 h3 h4
    by_cases hs : start ∈ held
    · have hlt : start + 1 ≤ i := by
        rcases Nat.eq_or_lt_of_le h1 with he | hl
        · exact absurd (he ▸ hs) h3
        · omega
      simp only [firstFreeFrom, if_pos hs]
      exact ih (start + 1) i hlt (by omega) h3 fun j hj1 hj2 => h4 j (by omega) hj2
    · have hi : i = start := by
        by_contra hne
        exact hs (h4 start (Nat.le_refl _) (by omega))
      subst hi
      simp [firstFreeFrom, hs]

/-- C8: `allocate` reserves the lowest-numbered free index, fails with the
pool-exhausted error exactly when all `N` indices are held, a freed index
becomes allocatable again (returned next when it is the only free index),
and on a pool of size 3 the allocate/allocate/allocate/allocate-fails/
free(1)/allocate-returns-1 scenario holds. -/
theorem C8_lock_pool_allocate_free :
    (∀ p : LockPool,
      (p.allocate = .error .noFreeLocks ↔ ∀ i, i < p.n → i ∈ p.held)) ∧
    (∀ (p : LockPool) (i : Nat) (p' : LockPool), p.allocate = .ok (i, p') →
      i < p.n ∧ i ∉ p.held ∧ (∀ j, j < i → j ∈ p.held) ∧
        p'.held = i :: p.held ∧ p'.n = p.n) ∧
    (∀ (p : LockPool) (i : Nat), i < p.n → (∀ j, j < p.n → j ∈ p.held) →
      (p.free i).allocate = .ok (i, ⟨p.n, i :: (p.free i).held⟩)) ∧
    (LockPool.allocate ⟨3, []⟩ = .ok (0, ⟨3, [0]⟩) ∧
      LockPool.allocate ⟨3, [0]⟩ = .ok (1, ⟨3, [1, 0]⟩) ∧
      LockPool.allocate ⟨3, [1, 0]⟩ = .ok (2, ⟨3, [2, 1, 0]⟩) ∧
      LockPool.allocate ⟨3, [2, 1, 0]⟩ = .error .noFreeLocks ∧
      LockPool.allocate (LockPool.free ⟨3, [2, 1, 0]⟩ 1) =
        .ok (1, ⟨3, [1, 2, 0]⟩)) := by
  refine ⟨fun p => ⟨fun h i hi => ?_, fun h => ?_⟩,
    fun p i p' h => ?_, fun p i hi hall => ?_, rfl, rfl, rfl, rfl, rfl⟩
  · -- error → all held
    rcases hf : firstFreeFrom p.held 0 p.n with _ | j
    · exact firstFreeFrom_none_spec p.held p.n 0 hf i (Nat.zero_le _) (by omega)
    · simp [LockPool.allocate, hf] at h
  · -- all held → error
    rcases hf : firstFreeFrom p.held 0 p.n with _ | j
    · simp [LockPool.allocate, hf]
    · obtain ⟨h1, _, h3, _⟩ := firstFreeFrom_some_spec p.held p.n 0 j hf
      exact absurd (h j (by omega)) h1
  · -- ok → lowest free, held updated
    rcases hf : firstFreeFrom p.held 0 p.n with _ | j
    · simp [LockPool.allocate, hf] at h
    · obtain ⟨h1, _, h3, h4⟩ := firstFreeFrom_some_spec p.held p.n 0 j hf
      simp only [LockPool.allocate, hf, Except.ok.injEq, Prod.mk.injEq] at h
      obtain ⟨hji, hp'⟩ := h
      subst hji
      exact ⟨by omega, h1, fun k hk => h4 k (Nat.zero_le _) hk,
        by rw [← hp'], by rw [← hp']⟩
  · -- free then allocate returns the freed index
    have hmem : ∀ j, j < i → j ∈ (p.free i).held := by
      intro j hj
      simp only [LockPool.free, List.mem_filter]
      exact ⟨hall j (by omega), by simp; omega⟩
    have hfree : i ∉ (p.free i).held := by
      simp [LockPool.free, List.mem_filter]
    have hf : firstFreeFrom (p.free i).held 0 (p.free i).n = some i := by
      have : (p.free i).n = p.n := rfl
      rw [this]
      exact firstFreeFrom_eq_some _ p.n 0 i (Nat.zero_le _) (by omega) hfree
        fun j hj1 hj2 => hmem j hj2
    simp only [LockPool.free, ne_eq, decide_not] at hf
    simp [LockPool.allocate, LockPool.free, hf]

/-- C8 witness: the theorem applied to the concrete exhausted pool of
size 3. -/
theorem C8_lock_pool_witness :
    LockPool.allocate ⟨3, [2, 1, 0]⟩ = .error .noFreeLocks ∧
    LockPool.allocate (LockPool.free ⟨3, [2, 1, 0]⟩ 1) =
      .ok (1, ⟨3, [1, 2, 0]⟩) := by
  refine ⟨(C8_lock_pool_allocate_free.1 ⟨3, [2, 1, 0]⟩).mpr (by decide), ?_⟩
  have h := C8_lock_pool_allocate_free.2.2.1 ⟨3, [2, 1, 0]⟩ 1 (by decide)
    (by decide)
  simpa using h

/-- C4: both lock-manager backends turn a not-exist open error into
creation of a fresh manager at the same path and abort on any other open
error — except that an SHM ERANGE size-mismatch with renumbering requested
removes the old medium and recreates it instead of failing. -/
theorem C4_lock_manager_open_semantics (env : LockEnv) (dr : Bool) :
    (env.openFileRes = .error .notExist → env.newFileRes = .ok () →
      getLockManager (strL "file") dr env = .ok ⟨strL "file", true⟩) ∧
    (∀ e : GoErr, env.openFileRes = .error e → e ≠ .notExist →
      getLockManager (strL "file") dr env = .error e) ∧
    (∀ lt : Str, lt = ([] : Str) ∨ lt = strL "shm" →
      (env.openShmRes = .error .notExist → env.newShmRes = .ok () →
        getLockManager lt dr env = .ok ⟨strL "shm", true⟩) ∧
      (env.openShmRes = .error .erange → dr = true →
        env.removeShmErr = none → env.newShmRes = .ok () →
        getLockManager lt dr env = .ok ⟨strL "shm", true⟩) ∧
      (∀ e : GoErr, env.openShmRes = .error e → e ≠ .notExist →
        (e ≠ .erange ∨ dr = false) →
        getLockManager lt dr env = .error e)) := by
  refine ⟨fun h1 h2 => ?_, fun e h1 h2 => ?_, fun lt hlt => ?_⟩
  · simp [getLockManager, h1, h2]
  · simp [getLockManager, h1, h2]
  · have hne : ¬(lt = strL "file") := by
      rcases hlt with h | h <;> subst h <;> decide
    refine ⟨fun h1 h2 => ?_, fun h1 hdr h3 h4 => ?_, fun e h1 h2 h3 => ?_⟩
    · simp [getLockManager, hne, hlt, h1, h2]
    · subst hdr
      simp [getLockManager, hne, hlt, h1, h3, h4]
    · rcases h3 with h3 | h3
      · simp [getLockManager, hne, hlt, h1, h2, h3]
      · subst h3
        simp [getLockManager, hne, hlt, h1, h2]

/-- C4 witness: the theorem applied to the fresh-medium environment (file
not-exist, SHM ERANGE with renumbering) and to a fatal open error. -/
theorem C4_lock_manager_open_witness :
    getLockManager (strL "file") true lockEnvFresh = .ok ⟨strL "file", true⟩ ∧
    getLockManager (strL "shm") true lockEnvFresh = .ok ⟨strL "shm", true⟩ ∧
    getLockManager (strL "file") false lockEnvBad =
      .error (.other (strL "io")) :=
  ⟨(C4_lock_manager_open_semantics lockEnvFresh true).1 rfl rfl,
    ((C4_lock_manager_open_semantics lockEnvFresh true).2.2 (strL "shm")
      (Or.inr rfl)).2.1 rfl rfl rfl rfl,
    (C4_lock_manager_open_semantics lockEnvBad false).2.1 _ rfl (by decide)⟩

/-- C3 (evaluation at the failing input): with both `runtime_path` and
`runtime` configured and every runtime initializing successfully, the
designated default is the `runtime` entry "crun", not the `runtime_path`
entry "runc" that the claim — and the warning the code itself logs — says
is used. -/
theorem C3_runtime_path_not_precedent :
    defaultName (selectOCI cfgC3 envOCIOk) = some (strL "crun") ∧
    filepathBase (strL "/usr/bin/runc") = strL "runc" ∧
    strL "crun" ≠ strL "runc" :=
  ⟨rfl, rfl, by decide⟩

/-- Every listed entity gets a `refreshed` event. -/
theorem refreshed_mem_refreshEntities {e : Entity} {es : List Entity}
    (h : e ∈ es) : Ev.refreshed e.eid ∈ refreshEntities es := by
  rw [refreshEntities, List.mem_flatMap]
  exact ⟨e, h, List.mem_cons_self _ _⟩

/-- A failing entity's refresh error is logged. -/
theorem logged_mem_refreshEntities {e : Entity} {es : List Entity} {m : Str}
    (h : e ∈ es) (hm : e.refreshErr = some m) :
    Ev.logged m ∈ refreshEntities es := by
  rw [refreshEntities, List.mem_flatMap]
  exact ⟨e, h, by simp [hm]⟩

/-- C6: a failure refreshing a single container, pod or volume is logged
and prevents neither the remaining entities' refresh nor the creation of
the alive marker; only store-level `Refresh` or listing failures abort the
pass. -/
theorem C6_refresh_per_entity_failures_nonfatal
    (st : StateStore) (ctrs pods vols : List Entity) (w : World)
    (hr : st.storeRefreshErr = none)
    (hc : st.allCtrsRes = .ok ctrs) (hp : st.allPodsRes = .ok pods)
    (hv : st.allVolsRes = .ok vols) :
    runtimeRefresh st none w =
      .ok (refreshEntities ctrs ++ refreshEntities pods ++
        refreshEntities vols ++ [Ev.aliveCreated], ⟨true⟩) ∧
    (∀ e ∈ ctrs ++ pods ++ vols, ∀ (evs : List Ev) (w' : World),
      runtimeRefresh st none w = .ok (evs, w') →
      Ev.refreshed e.eid ∈ evs ∧ Ev.aliveCreated ∈ evs) ∧
    (∀ e ∈ ctrs, ∀ m : Str, e.refreshErr = some m →
      ∀ (evs : List Ev) (w' : World),
      runtimeRefresh st none w = .ok (evs, w') → Ev.logged m ∈ evs) ∧
    (∀ (st2 : StateStore) (er : GoErr) (ce : Option GoErr),
      st2.storeRefreshErr = some er → runtimeRefresh st2 ce w = .error er) ∧
    (∀ (st2 : StateStore) (er : GoErr) (ce : Option GoErr),
      st2.storeRefreshErr = none → st2.allCtrsRes = .error er →
      runtimeRefresh st2 ce w = .error er) := by
  have h1 : runtimeRefresh st none w =
      .ok (refreshEntities ctrs ++ refreshEntities pods ++
        refreshEntities vols ++ [Ev.aliveCreated], ⟨true⟩) := by
    simp [runtimeRefresh, hr, hc, hp, hv]
  refine ⟨h1, fun e he evs w' heq => ?_, fun e he m hm evs w' heq => ?_,
    fun st2 er ce h2 => by simp [runtimeRefresh, h2],
    fun st2 er ce h2 h3 => by simp [runtimeRefresh, h2, h3, wrapf]⟩
  · rw [h1] at heq
    obtain ⟨hevs, _⟩ := by
      simpa using heq
    subst hevs
    refine ⟨?_, by simp⟩
    rcases List.mem_append.mp he with he' | hv'
    · rcases List.mem_append.mp he' with hc' | hp'
      · simp [refreshed_mem_refreshEntities hc']
      · simp [refreshed_mem_refreshEntities hp']
    · simp [refreshed_mem_refreshEntities hv']
  · rw [h1] at heq
    obtain ⟨hevs, _⟩ := by
      simpa using heq
    subst hevs
    simp [logged_mem_refreshEntities he hm]

/-- C6 witness: the theorem applied to the concrete store whose second
container and volume fail to refresh. -/
theorem C6_refresh_witness :
    runtimeRefresh stOkW none ⟨false⟩ =
      .ok (refreshEntities [eClean, eBad] ++ refreshEntities [ePod] ++
        refreshEntities [eVol] ++ [Ev.aliveCreated], ⟨true⟩) ∧
    Ev.refreshed (strL "v1") ∈
      (refreshEntities [eClean, eBad] ++ refreshEntities [ePod] ++
        refreshEntities [eVol] ++ [Ev.aliveCreated]) ∧
    Ev.logged (strL "refresh failed") ∈
      (refreshEntities [eClean, eBad] ++ refreshEntities [ePod] ++
        refreshEntities [eVol] ++ [Ev.aliveCreated]) := by
  have h := C6_refresh_per_entity_failures_nonfatal stOkW [eClean, eBad]
    [ePod] [eVol] ⟨false⟩ rfl rfl rfl rfl
  exact ⟨h.1, (h.2.1 eVol (by simp) _ _ h.1).1,
    h.2.2.1 eBad (by simp) _ rfl _ _ h.1⟩

/-- Under force, the shutdown trace is exactly the per-container stop
attempts with their logged failures. -/
theorem shutdown_force_trace (r : RuntimeS) (ctrs : List Entity)
    (hvld : r.valid = true) (hc : r.state.allCtrsRes = .ok ctrs) :
    (shutdown r true).2.2 = ctrs.flatMap (fun c =>
      Ev.stopAttempt c.eid ::
        (match c.stopErr with
         | some m => [Ev.logged m]
         | none => [])) := by
  rcases hce : r.state.closeErr with _ | e <;>
    simp [shutdown, hvld, hc, hce, storeShutdown]

/-- C2: with force unset, `Shutdown` fails while a container is still
running; with force set it attempts to stop every container, logs
per-container stop failures without aborting, and closes the state store —
the overall result depends only on the store/state close outcomes. -/
theorem C2_shutdown_semantics (r : RuntimeS) (ctrs : List Entity)
    (hvld : r.valid = true) (hc : r.state.allCtrsRes = .ok ctrs) :
    (r.storePresent = true → ctrs.any (·.running) = true →
      (shutdown r false).1 ≠ none) ∧
    ((shutdown r true).1 = r.state.closeErr ∧
      (shutdown r true).2.1.valid = false ∧
      (∀ c ∈ ctrs, Ev.stopAttempt c.eid ∈ (shutdown r true).2.2) ∧
      (∀ c ∈ ctrs, ∀ m : Str, c.stopErr = some m →
        Ev.logged m ∈ (shutdown r true).2.2)) := by
  have htr := shutdown_force_trace r ctrs hvld hc
  refine ⟨fun hsp hrun => ?_, ?_, ?_, fun c hmem => ?_, fun c hmem m hm => ?_⟩
  · rcases hce : r.state.closeErr with _ | e <;>
      simp [shutdown, hvld, hsp, hce, storeShutdown, anyRunningB, hc, hrun]
  · rcases hce : r.state.closeErr with _ | e <;>
      simp [shutdown, hvld, hce, storeShutdown]
  · rcases hce : r.state.closeErr with _ | e <;>
      simp [shutdown, hvld, hce, storeShutdown]
  · rw [htr, List.mem_flatMap]
    exact ⟨c, hmem, List.mem_cons_self _ _⟩
  · rw [htr, List.mem_flatMap]
    exact ⟨c, hmem, by simp [hm]⟩

/-- C2 witness: the theorem applied to the concrete runtime whose second
container is running and fails both refresh and stop. -/
theorem C2_shutdown_witness :
    (shutdown rValidW false).1 ≠ none ∧
    (shutdown rValidW true).1 = none ∧
    Ev.stopAttempt (strL "c2") ∈ (shutdown rValidW true).2.2 ∧
    Ev.logged (strL "stop failed") ∈ (shutdown rValidW true).2.2 := by
  have h := C2_shutdown_semantics rValidW [eClean, eBad] rfl rfl
  exact ⟨h.1 rfl rfl, h.2.1, h.2.2.2.1 eBad (by simp),
    h.2.2.2.2 eBad (by simp) _ rfl⟩

/-- An operation against an invalidated runtime fails fast with
`RuntimeStopped` and leaves the runtime unchanged. -/
theorem runOp_invalid {r : RuntimeS} (h : r.valid = false) (op : RtOp) :
    runOp r op = (r, some .runtimeStopped) := by
  cases op with
  | opGetConfig => simp [runOp, getConfig, h]
  | opShutdown f => simp [runOp, shutdown, h]

/-- C5: once `Shutdown` clears the validity flag it never becomes true
again — every subsequent `GetConfig` or `Shutdown`, and any sequence of
such operations, fails fast with `RuntimeStopped` and leaves the runtime
invalid. -/
theorem C5_invalid_is_permanent (r : RuntimeS) :
    (r.valid = true → ∀ f : Bool, (shutdown r f).2.1.valid = false) ∧
    (r.valid = false → getConfig r = .error .runtimeStopped) ∧
    (r.valid = false → ∀ f : Bool,
      shutdown r f = (some .runtimeStopped, r, [])) ∧
    (r.valid = false → ∀ ops : List RtOp,
      (runOps r ops).1.valid = false ∧
      (runOps r ops).2 = ops.map fun _ => some GoErr.runtimeStopped) := by
  refine ⟨fun hvld f => ?_, fun h => by simp [getConfig, h],
    fun h f => by simp [shutdown, h], fun h ops => ?_⟩
  · rcases hce : r.state.closeErr with _ | e <;>
      simp [shutdown, hvld, hce]
  · induction ops with
    | nil => simpa [runOps] using h
    | cons op ops ih =>
      obtain ⟨ih1, ih2⟩ := ih
      simp [runOps, runOp_invalid h, ih1, ih2]

/-- C5 witness: the theorem applied to the concrete valid and invalidated
runtimes. -/
theorem C5_invalid_witness :
    (shutdown rValidW false).2.1.valid = false ∧
    getConfig rStoppedW = .error .runtimeStopped ∧
    shutdown rStoppedW true = (some .runtimeStopped, rStoppedW, []) ∧
    (runOps rStoppedW [RtOp.opGetConfig, RtOp.opShutdown false]).2 =
      [some GoErr.runtimeStopped, some GoErr.runtimeStopped] := by
  have h := C5_invalid_is_permanent rStoppedW
  have h0 := (C5_invalid_is_permanent rValidW).1 rfl false
  refine ⟨h0, h.2.1 rfl, h.2.2.1 rfl true, ?_⟩
  have h2 := (h.2.2.2 rfl [RtOp.opGetConfig, RtOp.opShutdown false]).2
  simpa using h2

/-- C7: bootstrap with an unrecognized state-store type, or with a lock
backend that is neither "file", "shm" nor the empty string, fails with
`ErrInvalidArg` and produces no runtime. -/
theorem C7_invalid_config_rejected
    (cfg : BootCfg) (env : BootEnv) (st : StateStore) (w : World) (cp : Str)
    (h1 : env.conmonRes = .ok cp) (h2 : env.mkStaticDirErr = none) :
    (∀ k : Nat, cfg.stateType = .other k →
      makeRuntime cfg env st w = .error .invalidArg) ∧
    (∀ sel : List (Str × OCIRt) × Option OCIRt,
      stateSwitch cfg.stateType env.newStateErr = .ok () →
      env.getDBConfigErr = none → env.mergeDBConfigErr = none →
      env.validateDBConfigErr = none → env.setNamespaceErr = none →
      env.configureStoreErr = none → env.newEventerErr = none →
      env.mkTmpDirErr = none → env.mkEventsDirErr = none →
      selectOCI cfg.oci env.ociEnv = .ok sel →
      env.mkTmpDirErr2 = none → env.cniErr = none →
      env.getLockfileErr = none →
      cfg.lockType ≠ strL "file" → cfg.lockType ≠ ([] : Str) →
      cfg.lockType ≠ strL "shm" →
      makeRuntime cfg env st w = .error .invalidArg) := by
  constructor
  · intro k hk
    simp [makeRuntime, h1, h2, hk, stateSwitch, optStep, wrapf,
      exBind_ok, exBind_err, exPure]
  · intro sel h3 h4 h5 h6 h7 h8 h9 h10 h11 h12 h13 h14 h15 hl1 hl2 hl3
    obtain ⟨selm, seld⟩ := sel
    have hlock : getLockManager cfg.lockType cfg.doRenumber env.lockEnv =
        .error .invalidArg := by
      simp [getLockManager, hl1, hl2, hl3, wrapf]
    simp [makeRuntime, h1, h2, h3, h4, h5, h6, h7, h8, h9, h10, h11, h12,
      h13, h14, h15, hlock, optStep, wrapf, exBind_ok, exBind_err, exPure]

/-- C7 witness: the theorem applied to the all-success environment with an
unknown numeric state type and with the lock backend "bogus". -/
theorem C7_invalid_config_witness :
    makeRuntime { cfgW with stateType := .other 7 } envW stOkW ⟨true⟩ =
      .error .invalidArg ∧
    makeRuntime { cfgW with lockType := strL "bogus" } envW stOkW ⟨true⟩ =
      .error .invalidArg := by
  refine ⟨(C7_invalid_config_rejected _ envW stOkW ⟨true⟩ _ rfl rfl).1 7 rfl,
    (C7_invalid_config_rejected _ envW stOkW ⟨true⟩ _ rfl rfl).2 selW rfl rfl
      rfl rfl rfl rfl rfl rfl rfl rfl rfl rfl rfl (by decide) (by decide)
      (by decide)⟩

/-- C1: on a successful bootstrap, the entities are refreshed exactly when
the alive marker is absent (including the first run ever, when the whole
store is refreshed and the marker appears only after every container, pod
and volume was processed), and a second bootstrap against the resulting
state — marker now present — refreshes zero entities. -/
theorem C1_refresh_iff_marker_absent
    (cfg : BootCfg) (env : BootEnv) (st : StateStore)
    (ctrs pods vols : List Entity) (cp : Str)
    (sel : List (Str × OCIRt) × Option OCIRt) (lm : LockMgr)
    (h1 : env.conmonRes = .ok cp)
    (h2 : env.mkStaticDirErr = none)
    (h3 : stateSwitch cfg.stateType env.newStateErr = .ok ())
    (h4 : env.getDBConfigErr = none) (h5 : env.mergeDBConfigErr = none)
    (h6 : env.validateDBConfigErr = none) (h7 : env.setNamespaceErr = none)
    (h8 : env.configureStoreErr = none) (h9 : env.newEventerErr = none)
    (h10 : env.mkTmpDirErr = none) (h11 : env.mkEventsDirErr = none)
    (h12 : selectOCI cfg.oci env.ociEnv = .ok sel)
    (h13 : env.mkTmpDirErr2 = none) (h14 : env.cniErr = none)
    (h15 : env.getLockfileErr = none)
    (h16 : getLockManager cfg.lockType cfg.doRenumber env.lockEnv = .ok lm)
    (h17 : cfg.doRenumber = false)
    (h18 : env.createAliveErr = none)
    (h19 : cfg.doMigrate = false)
    (hsr : st.storeRefreshErr = none)
    (hcs : st.allCtrsRes = .ok ctrs) (hps : st.allPodsRes = .ok pods)
    (hvs : st.allVolsRes = .ok vols) :
    makeRuntime cfg env st ⟨true⟩ =
      .ok (mkRt cfg st lm sel.2 false, ⟨true⟩, []) ∧
    makeRuntime cfg env st ⟨false⟩ =
      .ok (mkRt cfg st lm sel.2 true, ⟨true⟩,
        refreshEntities ctrs ++ refreshEntities pods ++
          refreshEntities vols ++ [Ev.aliveCreated]) ∧
    (∀ (w w' : World) (rt : RuntimeS) (evs : List Ev),
      makeRuntime cfg env st w = .ok (rt, w', evs) →
      makeRuntime cfg env st w' =
        .ok (mkRt cfg st lm sel.2 false, w', [])) := by
  obtain ⟨selm, seld⟩ := sel
  rw [h17] at h16
  have hrefresh : ∀ w : World, runtimeRefresh st env.createAliveErr w =
      .ok (refreshEntities ctrs ++ refreshEntities pods ++
        refreshEntities vols ++ [Ev.aliveCreated], ⟨true⟩) := by
    intro w
    simp [runtimeRefresh, hsr, hcs, hps, hvs, h18]
  have ha : makeRuntime cfg env st ⟨true⟩ =
      .ok (mkRt cfg st lm seld false, ⟨true⟩, []) := by
    simp [makeRuntime, h1, h2, h3, h4, h5, h6, h7, h8, h9, h10, h11, h12,
      h13, h14, h15, h16, h17, h19, optStep, mkRt,
      exBind_ok, exBind_err, exPure]
  have hb : makeRuntime cfg env st ⟨false⟩ =
      .ok (mkRt cfg st lm seld true, ⟨true⟩,
        refreshEntities ctrs ++ refreshEntities pods ++
          refreshEntities vols ++ [Ev.aliveCreated]) := by
    simp [makeRuntime, h1, h2, h3, h4, h5, h6, h7, h8, h9, h10, h11, h12,
      h13, h14, h15, h16, h17, h19, hrefresh, optStep, mkRt,
      exBind_ok, exBind_err, exPure]
  refine ⟨ha, hb, fun w w' rt evs heq => ?_⟩
  rcases w with ⟨a⟩
  cases a
  · rw [hb] at heq
    obtain ⟨-, hw', -⟩ := by simpa using heq
    rw [← hw']
    exact ha
  · rw [ha] at heq
    obtain ⟨-, hw', -⟩ := by simpa using heq
    rw [← hw']
    exact ha

/-- C1 witness: the theorem applied to the concrete all-success bootstrap
over the three-entity store, exercising both marker states. -/
theorem C1_refresh_witness :
    makeRuntime cfgW envW stOkW ⟨true⟩ =
      .ok (mkRt cfgW stOkW ⟨strL "shm", false⟩ selW.2 false, ⟨true⟩, []) ∧
    makeRuntime cfgW envW stOkW ⟨false⟩ =
      .ok (mkRt cfgW stOkW ⟨strL "shm", false⟩ selW.2 true, ⟨true⟩,
        refreshEntities [eClean, eBad] ++ refreshEntities [ePod] ++
          refreshEntities [eVol] ++ [Ev.aliveCreated]) := by
  have h := C1_refresh_iff_marker_absent cfgW envW stOkW [eClean, eBad]
    [ePod] [eVol] (strL "/usr/bin/conmon") selW ⟨strL "shm", false⟩
    rfl rfl rfl rfl rfl rfl rfl rfl rfl rfl rfl rfl rfl rfl rfl rfl rfl rfl
    rfl rfl rfl rfl rfl
  exact ⟨h.1, h.2.1⟩

end Libpod
